import Mathlib

/-!
Shallow embedding of the `react-mn-wallet-connect` repository.

The modelled code is `src/App.tsx` (`handleConnect`, `handleDisconnect`)
and `src/components/WalletCard.tsx`, together with the optional-chaining
lookup `window.midnight?.mnLace` that locates the wallet capability.

JavaScript values that can flow through the handshake are modelled by the
inductive `JSVal` (undefined, null, booleans, strings, and objects carrying
data fields and asynchronous methods).  A method entry `(name, ok, v)`
resolves with `v` when `ok = true` and rejects with `v` otherwise, which is
exactly the information an `await`ed call exposes to the `try`/`catch` of
`handleConnect`.  Thrown exceptions and awaited rejections are unified as
the `Except.error` branch, matching `async`/`await` semantics.
-/

namespace MNWallet

/-- A JavaScript value, as far as the wallet handshake can observe it.
Objects carry named data fields and named asynchronous methods; a method
entry `(name, ok, v)` resolves with `v` if `ok` and rejects with `v`
otherwise. -/
inductive JSVal where
  | undefined : JSVal
  | null : JSVal
  | bool (b : Bool) : JSVal
  | str (s : String) : JSVal
  | obj (fields : List (String × JSVal)) (methods : List (String × Bool × JSVal)) : JSVal

/-- JavaScript nullish test (`undefined` or `null`). -/
def nullish : JSVal → Bool
  | .undefined => true
  | .null => true
  | _ => false

/-- JavaScript truthiness of a value, as used by `if (isEnabled)` and by
`isConnected && walletAddress` in WalletCard. -/
def truthy : JSVal → Bool
  | .undefined => false
  | .null => false
  | .bool b => b
  | .str s => s != ""
  | .obj _ _ => true

/-- The `TypeError` object the runtime throws when a property or method is
accessed on a nullish value or a missing method is called.  It is a plain
non-nullish object with no `reason` field. -/
def typeErrorVal : JSVal :=
  .obj [("name", .str "TypeError")] []

/-- Member access `v.f` on a value already known to be non-nullish: objects
yield the field (or `undefined` when absent), primitives yield `undefined`. -/
def getFieldD : JSVal → String → JSVal
  | .obj fs _, f => ((fs.lookup f).getD .undefined)
  | _, _ => .undefined

/-- Member access `v.f` in general: throws `TypeError` on a nullish
receiver, otherwise reads the field. -/
def getProp (v : JSVal) (f : String) : Except JSVal JSVal :=
  match v with
  | .undefined => .error typeErrorVal
  | .null => .error typeErrorVal
  | _ => .ok (getFieldD v f)

/-- Awaited method call `recv.m()`.  The second component records whether a
method of an actual capability object really ran (`TypeError`s raised
because the receiver is nullish, is a primitive, or lacks the method do not
run any capability code). -/
def callOn (recv : JSVal) (m : String) : Except JSVal JSVal × Bool :=
  match recv with
  | .obj _ ms =>
    match ms.lookup m with
    | some (true, v) => (.ok v, true)
    | some (false, e) => (.error e, true)
    | none => (.error typeErrorVal, false)
  | _ => (.error typeErrorVal, false)

/-- The awaited expression `root?.field.meth()` (e.g.
`window.midnight?.mnLace.enable()`).  When `root` is nullish the whole
chain short-circuits to `undefined` and nothing is called; otherwise the
plain member access `root.field` is performed and its result is invoked. -/
def chainCall (root : JSVal) (field meth : String) : Except JSVal JSVal × Bool :=
  match root with
  | .undefined => (.ok .undefined, false)
  | .null => (.ok .undefined, false)
  | v => callOn (getFieldD v field) meth

/-- The browser global context, as far as the app reads it. -/
structure Window where
  midnight : JSVal

/-- The Capability Locator: the lookup expression `window.midnight?.mnLace`
evaluated on its own, with the general member-access semantics (`getProp`)
that can in principle throw.  The optional chain guards the only nullish
receiver, so the result is always `Except.ok`. -/
def locateMnLace (w : Window) : Except JSVal JSVal :=
  match w.midnight with
  | .undefined => .ok .undefined
  | .null => .ok .undefined
  | v => getProp v "mnLace"

/-- The two-field view state held by App: `isConnected` is a boolean React
state, `walletAddress` is whatever value `state.address` produced (typed
`string | null`, but at runtime any value can land there). -/
structure ConnState where
  connected : Bool
  address : JSVal

/-- Instrumentation: which capability methods actually ran during one
`handleConnect` call. -/
structure Trace where
  enableInvoked : Bool
  isEnabledInvoked : Bool
  stateInvoked : Bool

/-- The `catch (error)` block of `handleConnect`: it evaluates
`error.reason || error` for logging.  When `error` is nullish, reading
`.reason` itself throws a `TypeError`, which escapes `handleConnect`
(`Except.error`); otherwise the block completes and control reaches the two
setters with the current values of the local variables `(isConnected,
address)`. -/
def runCatch (e : JSVal) (c : Bool) (a : JSVal) : Except JSVal ConnState :=
  match getProp e "reason" with
  | .error e2 => .error e2
  | .ok _ => .ok ⟨c, a⟩

/-- `handleConnect` from `src/App.tsx`:

```
let isConnected = false;
let address = null;
try {
  const connectorAPI = await window.midnight?.mnLace.enable();
  const isEnabled = await window.midnight?.mnLace.isEnabled();
  if (isEnabled) {
    isConnected = true;
    const state = await connectorAPI.state();
    address = state.address;
  }
} catch (error) { console.log("An error occurred:", error.reason || error); }
setIsConnected(isConnected);
setWalletAddress(address);
```

The result is the pair written by the two setters (`Except.ok`), or the
exception escaping the whole call when the catch block itself throws
(`Except.error`, in which case the setters never run). -/
def handleConnect (w : Window) : Except JSVal ConnState × Trace :=
  match chainCall w.midnight "mnLace" "enable" with
  | (.error e, t1) => (runCatch e false .null, ⟨t1, false, false⟩)
  | (.ok connectorAPI, t1) =>
    match chainCall w.midnight "mnLace" "isEnabled" with
    | (.error e, t2) => (runCatch e false .null, ⟨t1, t2, false⟩)
    | (.ok isEnabled, t2) =>
      if truthy isEnabled then
        match callOn connectorAPI "state" with
        | (.error e, t3) => (runCatch e true .null, ⟨t1, t2, t3⟩)
        | (.ok st, t3) =>
          match getProp st "address" with
          | .error e => (runCatch e true .null, ⟨t1, t2, t3⟩)
          | .ok addr => (.ok ⟨true, addr⟩, ⟨t1, t2, t3⟩)
      else (.ok ⟨false, .null⟩, ⟨t1, t2, false⟩)

/-- `handleDisconnect` from `src/App.tsx`: resets both state fields,
synchronously, touching no capability object (its type takes no Window). -/
def handleDisconnect (_s : ConnState) : ConnState :=
  ⟨false, .null⟩

/-- The initial React state:
`useState<boolean>(false)` and `useState<string | null>(null)`. -/
def initialState : ConnState :=
  ⟨false, .null⟩

/-- Effect of one `handleConnect` call on the held view state: when the call
resolves, the two setters replace the state with the call's result; when the
exception escapes (the catch block itself threw), the setters never run and
the state is left untouched. -/
def applyConnect (w : Window) (s : ConnState) : ConnState :=
  match (handleConnect w).1 with
  | .ok s2 => s2
  | .error _ => s

/-- A user-initiated event: a Connect click (against whatever the browser
globals look like at that moment) or a Disconnect click. -/
inductive Ev where
  | conn (w : Window) : Ev
  | disc : Ev

/-- One event's effect on the view state. -/
def stepEv (s : ConnState) : Ev → ConnState
  | .conn w => applyConnect w s
  | .disc => handleDisconnect s

/-- The view state after a sequence of events starting from `initialState`. -/
def runEvents (es : List Ev) : ConnState :=
  es.foldl stepEv initialState

/-- A view state is reachable when some event sequence produces it. -/
def Reachable (s : ConnState) : Prop :=
  ∃ es : List Ev, runEvents es = s

/-! ## WalletCard (src/components/WalletCard.tsx) -/

/-- The middle section of the card: either the wallet-address block
(label plus the rendered address value) or the placeholder prompt. -/
inductive CardBody where
  | addressBlock (label : String) (value : JSVal) : CardBody
  | placeholder (text : String) : CardBody

/-- The abstract render output of WalletCard: the status text, the body,
and the list of action buttons it emits (label plus which callback the
button dispatches). -/
structure RenderedCard where
  statusText : String
  body : CardBody
  buttons : List (String × Bool)

/-- `WalletCard` from `src/components/WalletCard.tsx`, as a pure function
of its props.  The status span renders `"Connected"`/`"Disconnected"`; the
body shows the address exactly when `isConnected && walletAddress` is
truthy and the placeholder otherwise; the footer renders exactly one
button — Disconnect (dispatching `onDisconnect`, flagged `true`) when
connected, Connect (dispatching `onConnect`, flagged `false`) otherwise. -/
def WalletCard (isConnected : Bool) (walletAddress : JSVal) : RenderedCard :=
  { statusText := if isConnected then "Connected" else "Disconnected"
    body :=
      if isConnected && truthy walletAddress then
        .addressBlock "Wallet Address:" walletAddress
      else
        .placeholder "Please connect your wallet to proceed."
    buttons :=
      if isConnected then [("Disconnect Wallet", true)] else [("Connect Wallet", false)] }

/-! ## Concrete environments used by the claims -/

/-- A registry entry exposing `enable` and `isEnabled` with the given
behaviours. -/
def mnLaceObj (enableB isEnabledB : Bool × JSVal) : JSVal :=
  .obj [] [("enable", enableB), ("isEnabled", isEnabledB)]

/-- A window whose `midnight` registry holds the given `mnLace` entry. -/
def windowWith (mnLaceVal : JSVal) : Window :=
  ⟨.obj [("mnLace", mnLaceVal)] []⟩

/-- An enabled-capability object whose `state` method has the given
behaviour. -/
def connectorWith (stateB : Bool × JSVal) : JSVal :=
  .obj [] [("state", stateB)]

/-- A garden-variety rejection reason: a non-nullish error object. -/
def errObj : JSVal :=
  .obj [("message", .str "state failed")] []

/-- Environment in which `enable()` resolves, `isEnabled()` resolves to
`true`, and `state()` rejects with an ordinary error object. -/
def wStateFails : Window :=
  windowWith (mnLaceObj (true, connectorWith (false, errObj)) (true, .bool true))

/-- Environment in which `enable()` rejects with `undefined`. -/
def wUndefReject : Window :=
  windowWith (mnLaceObj (false, .undefined) (true, .bool true))

/-- Environment for a fully successful handshake yielding the given
address string. -/
def wSuccess (a : String) : Window :=
  windowWith
    (mnLaceObj (true, connectorWith (true, .obj [("address", .str a)] []))
      (true, .bool true))

/-- A window with no `midnight` registry at all. -/
def wNoRegistry : Window :=
  ⟨.undefined⟩

/-- A window whose `midnight` registry is present but has no `mnLace`
entry. -/
def wNoEntry : Window :=
  ⟨.obj [("otherWallet", .obj [] [])] []⟩

/-- Environment in which the handshake reaches `isEnabled()` and it
resolves to `false`. -/
def wDisabled : Window :=
  windowWith
    (mnLaceObj (true, connectorWith (true, .obj [("address", .str "0xABC")] []))
      (true, .bool false))

/-! ## Helper lemmas -/

/-- If the catch block completes normally, the state written by the two
setters is exactly the local variables it entered with. -/
theorem runCatch_ok {e : JSVal} {c : Bool} {a : JSVal} {s2 : ConnState}
    (h : runCatch e c a = .ok s2) : s2 = ⟨c, a⟩ := by
  unfold runCatch at h
  split at h
  · cases h
  · exact (Except.ok.inj h).symm

/-- Calling any method on a nullish receiver throws a `TypeError` and runs
no capability code. -/
theorem callOn_nullish {v : JSVal} (h : nullish v = true) (m : String) :
    callOn v m = (.error typeErrorVal, false) := by
  cases v <;> simp_all [nullish, callOn]

/-- Every normally-resolving `handleConnect` outcome that reports
`connected = false` carries a `null` address. -/
theorem connect_ok_disconnected_null {w : Window} {s2 : ConnState}
    (h : (handleConnect w).1 = .ok s2) (hc : s2.connected = false) :
    s2.address = JSVal.null := by
  unfold handleConnect at h
  split at h
  · obtain rfl := runCatch_ok h
    rfl
  next =>
    split at h
    · obtain rfl := runCatch_ok h
      rfl
    next =>
      split at h
      · split at h
        · obtain rfl := runCatch_ok h
          rfl
        next =>
          split at h
          · obtain rfl := runCatch_ok h
            rfl
          · obtain rfl := (Except.ok.inj h).symm
            cases hc
      · obtain rfl := (Except.ok.inj h).symm
        rfl

/-- One user event preserves the view-state invariant. -/
theorem inv_step (s : ConnState) (e : Ev)
    (h : s.connected = false → s.address = JSVal.null) :
    (stepEv s e).connected = false → (stepEv s e).address = JSVal.null := by
  cases e with
  | disc => intro _; rfl
  | conn w =>
    simp only [stepEv, applyConnect]
    cases hk : (handleConnect w).1 with
    | ok s2 => exact fun hc => connect_ok_disconnected_null hk hc
    | error e => exact h

/-- The invariant holds along every event sequence. -/
theorem inv_run (es : List Ev) :
    ∀ s : ConnState, (s.connected = false → s.address = JSVal.null) →
      ((es.foldl stepEv s).connected = false →
        (es.foldl stepEv s).address = JSVal.null) := by
  induction es with
  | nil => exact fun s h => h
  | cons e es ih => exact fun s h => ih _ (inv_step s e h)

/-! ## Claim theorems -/

/-- C1: the claim says every failure of `enable()`, `isEnabled()` or
`state()` yields `{connected:false, address:absent}`.  The code diverges at
the `state()` step: in `wStateFails`, `enable()` resolves and `isEnabled()`
resolves to `true`, the local `isConnected` is set to `true` before
`state()` is awaited, `state()` rejects, and the catch block never resets
it — so `handleConnect` resolves to `{connected:true, address:null}`, not
to the disconnected state the claim (and the spec's failure boundary)
requires. -/
theorem c1_state_failure_yields_connected_true :
    handleConnect wStateFails = (.ok ⟨true, JSVal.null⟩, ⟨true, true, true⟩) := rfl

/-- C2: the claim says `connect()` never lets an exception escape, for any
behaviour of the capability, including rejection with `null` or
`undefined`.  The code diverges: when `enable()` rejects with `undefined`
(environment `wUndefReject`), the catch block evaluates `error.reason`,
which throws a `TypeError` on the nullish `error`, and that `TypeError`
escapes `handleConnect` instead of a `ConnectionState` being produced. -/
theorem c2_nullish_reason_escapes :
    (handleConnect wUndefReject).1 = .error typeErrorVal := rfl

/-- C4: if `enable()` resolves to some capability value, `isEnabled()`
resolves to `true`, `state()` on that capability resolves to some value,
and reading its `address` field yields the string `a`, then
`handleConnect` resolves to exactly `{connected:true, address:a}`. -/
theorem c4_success_roundtrip (w : Window) (conn st : JSVal) (a : String)
    (t1 t2 t3 : Bool)
    (h1 : chainCall w.midnight "mnLace" "enable" = (.ok conn, t1))
    (h2 : chainCall w.midnight "mnLace" "isEnabled" = (.ok (.bool true), t2))
    (h3 : callOn conn "state" = (.ok st, t3))
    (h4 : getProp st "address" = .ok (.str a)) :
    (handleConnect w).1 = .ok ⟨true, JSVal.str a⟩ := by
  simp [handleConnect, h1, h2, h3, h4, truthy]

/-- Witness for C4 at a concrete environment: the fully successful
handshake with address `"0xABC"`. -/
theorem c4_success_roundtrip_witness :
    (handleConnect (wSuccess "0xABC")).1 = .ok ⟨true, JSVal.str "0xABC"⟩ :=
  c4_success_roundtrip (wSuccess "0xABC")
    (connectorWith (true, .obj [("address", .str "0xABC")] []))
    (.obj [("address", .str "0xABC")] []) "0xABC" true true true rfl rfl rfl rfl

/-- C5: when the wallet capability is absent from the registry — either
`window.midnight` is nullish, or `midnight` is present but its `mnLace`
member is nullish — `handleConnect` resolves to
`{connected:false, address:null}` and no capability method (`enable`,
`isEnabled`, or `state`) is ever invoked (the trace is all `false`). -/
theorem c5_absent_capability_disconnected (w : Window)
    (h : nullish w.midnight = true ∨ nullish (getFieldD w.midnight "mnLace") = true) :
    handleConnect w = (.ok ⟨false, JSVal.null⟩, ⟨false, false, false⟩) := by
  obtain ⟨m⟩ := w
  rcases h with h | h
  · cases m <;> simp_all [nullish] <;> rfl
  · cases m with
    | undefined => rfl
    | null => rfl
    | bool b => rfl
    | str s => rfl
    | obj fs ms =>
      simp only [handleConnect, chainCall]
      rw [callOn_nullish h]
      rfl

/-- Witness for C5 at concrete environments: registry entirely absent, and
registry present without an `mnLace` entry. -/
theorem c5_absent_capability_disconnected_witness :
    handleConnect wNoRegistry = (.ok ⟨false, JSVal.null⟩, ⟨false, false, false⟩) ∧
    handleConnect wNoEntry = (.ok ⟨false, JSVal.null⟩, ⟨false, false, false⟩) :=
  ⟨c5_absent_capability_disconnected wNoRegistry (Or.inl rfl),
   c5_absent_capability_disconnected wNoEntry (Or.inr rfl)⟩

/-- C3: every view state reachable from the initial state by connect and
disconnect events has a `null` address whenever it is disconnected (so a
non-absent address implies `connected = true`); moreover each connect
either replaces the whole state by a value independent of the previous
state or leaves it entirely unchanged, and each disconnect replaces the
whole state by the initial pair — the two fields are never updated
separately. -/
theorem c3_invariant_and_wholesale_update :
    (∀ s : ConnState, Reachable s → s.connected = false → s.address = JSVal.null) ∧
    (∀ (w : Window) (s : ConnState),
      applyConnect w s = applyConnect w initialState ∨ applyConnect w s = s) ∧
    (∀ s : ConnState, handleDisconnect s = ⟨false, JSVal.null⟩) := by
  refine ⟨?_, ?_, fun _ => rfl⟩
  · rintro s ⟨es, rfl⟩
    exact inv_run es initialState (fun _ => rfl)
  · intro w s
    simp only [applyConnect]
    cases (handleConnect w).1 with
    | error e => exact Or.inr rfl
    | ok s2 => exact Or.inl rfl

/-- Witness for C3: a concrete reachable disconnected state (a successful
connect followed by a disconnect) has a `null` address. -/
theorem c3_invariant_and_wholesale_update_witness :
    (runEvents [Ev.conn (wSuccess "0xABC"), Ev.disc]).address = JSVal.null :=
  c3_invariant_and_wholesale_update.1 (runEvents [Ev.conn (wSuccess "0xABC"), Ev.disc])
    ⟨[Ev.conn (wSuccess "0xABC"), Ev.disc], rfl⟩ rfl

/-- C6: the capability lookup `window.midnight?.mnLace` is total — it
always evaluates to `Except.ok` — and it yields the absence signal
`undefined` both when the registry itself is missing (nullish
`window.midnight`) and when the registry is present without an `mnLace`
entry. -/
theorem c6_locator_total (w : Window) :
    (∃ v, locateMnLace w = .ok v) ∧
    (nullish w.midnight = true → locateMnLace w = .ok .undefined) ∧
    (∀ fs ms, w.midnight = .obj fs ms → fs.lookup "mnLace" = none →
      locateMnLace w = .ok .undefined) := by
  obtain ⟨m⟩ := w
  refine ⟨?_, ?_, ?_⟩
  · cases m with
    | undefined => exact ⟨.undefined, rfl⟩
    | null => exact ⟨.undefined, rfl⟩
    | bool b => exact ⟨_, rfl⟩
    | str s => exact ⟨_, rfl⟩
    | obj fs ms => exact ⟨_, rfl⟩
  · intro h
    cases m <;> simp_all [nullish] <;> rfl
  · rintro fs ms rfl hnone
    simp [locateMnLace, getProp, getFieldD, hnone]

/-- Witness for C6: the two concrete absence scenarios both produce the
`undefined` absence signal without throwing. -/
theorem c6_locator_total_witness :
    locateMnLace wNoRegistry = .ok .undefined ∧ locateMnLace wNoEntry = .ok .undefined :=
  ⟨(c6_locator_total wNoRegistry).2.1 rfl,
   (c6_locator_total wNoEntry).2.2 [("otherWallet", .obj [] [])] [] rfl rfl⟩

/-- C7: `handleDisconnect` is a pure synchronous constant — it maps every
state to `{connected:false, address:null}` (its type takes no capability at
all, so no capability method can be invoked) and is therefore idempotent. -/
theorem c7_disconnect_constant_idempotent :
    (∀ s : ConnState, handleDisconnect s = ⟨false, JSVal.null⟩) ∧
    (∀ s : ConnState, handleDisconnect (handleDisconnect s) = handleDisconnect s) :=
  ⟨fun _ => rfl, fun _ => rfl⟩

/-- C8: on the disconnected input WalletCard renders the "Disconnected"
indicator, the placeholder instead of any address text, and a single
Connect button; on `{connected:true, address:"0xDEF..."}` it renders the
"Connected" indicator, the literal address, and a single Disconnect
button. -/
theorem c8_wallet_card_rendering :
    (WalletCard false JSVal.null =
        ⟨"Disconnected", .placeholder "Please connect your wallet to proceed.",
          [("Connect Wallet", false)]⟩ ∧
      (WalletCard false JSVal.null).buttons.length = 1) ∧
    (WalletCard true (JSVal.str "0xDEF...") =
        ⟨"Connected", .addressBlock "Wallet Address:" (JSVal.str "0xDEF..."),
          [("Disconnect Wallet", true)]⟩ ∧
      (WalletCard true (JSVal.str "0xDEF...")).buttons.length = 1) :=
  ⟨⟨rfl, rfl⟩, ⟨rfl, rfl⟩⟩

/-- C9: assuming the `enable()` step resolves and the `isEnabled()` step
resolves to a boolean (its declared contract) or to the `undefined`
produced when the registry lookup short-circuits, `state()` is invoked only
when `isEnabled()` yielded `true`, and whenever it yielded anything other
than `true` the handshake resolves to `{connected:false, address:null}`
without invoking `state()`. -/
theorem c9_state_gated_on_enabled (w : Window) (conn v : JSVal) (t1 t2 : Bool)
    (h1 : chainCall w.midnight "mnLace" "enable" = (.ok conn, t1))
    (h2 : chainCall w.midnight "mnLace" "isEnabled" = (.ok v, t2))
    (hb : v = .bool true ∨ v = .bool false ∨ v = .undefined) :
    ((handleConnect w).2.stateInvoked = true → v = .bool true) ∧
    (v ≠ .bool true →
      (handleConnect w).1 = .ok ⟨false, JSVal.null⟩ ∧
      (handleConnect w).2.stateInvoked = false) := by
  rcases hb with rfl | rfl | rfl
  · exact ⟨fun _ => rfl, fun hne => absurd rfl hne⟩
  · refine ⟨fun hst => ?_, fun _ => ⟨?_, ?_⟩⟩ <;>
      simp [handleConnect, h1, h2, truthy] at *
  · refine ⟨fun hst => ?_, fun _ => ⟨?_, ?_⟩⟩ <;>
      simp [handleConnect, h1, h2, truthy] at *

/-- Witness for C9 at a concrete environment where `isEnabled()` resolves
to `false`. -/
theorem c9_state_gated_on_enabled_witness :
    (handleConnect wDisabled).1 = .ok ⟨false, JSVal.null⟩ ∧
    (handleConnect wDisabled).2.stateInvoked = false :=
  (c9_state_gated_on_enabled wDisabled
      (connectorWith (true, .obj [("address", .str "0xABC")] [])) (.bool false)
      true true rfl rfl (Or.inr (Or.inl rfl))).2 (by simp)

/-- C10: the state `{connected:true, address:null}` is rendered without
error by WalletCard — "Connected" indicator, the placeholder prompt in
place of an address, and a single Disconnect button — and it is reachable
from the connect flow: in `wStateFails` (where `isEnabled()` yields `true`
and `state()` then rejects) one connect event drives the view state there
from the initial state. -/
theorem c10_connected_without_address :
    WalletCard true JSVal.null =
      ⟨"Connected", .placeholder "Please connect your wallet to proceed.",
        [("Disconnect Wallet", true)]⟩ ∧
    (WalletCard true JSVal.null).buttons.length = 1 ∧
    applyConnect wStateFails initialState = ⟨true, JSVal.null⟩ ∧
    Reachable ⟨true, JSVal.null⟩ :=
  ⟨rfl, rfl, rfl, ⟨[Ev.conn wStateFails], rfl⟩⟩

end MNWallet
